import Mathlib

/-!
Shallow embedding of the URL-summarization request handler
(`app.py`, the FastAPI endpoint, and `streamlit_app.py`, the interactive
form). External collaborators (the YouTube loader, the generic web
loader, the ChatGroq client and the summarize chain) are opaque: each
run is parameterized by the outcome every collaborator would produce if
invoked. Each embedded function returns its result together with the
log lines it emits and the trace of collaborator calls it makes, so
that ordering and call-count properties can be stated.
-/

/-- Outcome of invoking one opaque external collaborator: either it
throws an exception carrying a message, or it returns a value. -/
inductive Outcome (α : Type) where
  | throws (msg : String)
  | returns (val : α)
deriving DecidableEq, Repr

/-- ContentDocument: opaque unit of extracted text (the core logic only
inspects existence and non-emptiness of the list). -/
structure Doc where
  text : String
deriving DecidableEq, Repr

/-- Model of FastAPI HTTPException: a status code and a detail message. -/
structure Http where
  status : Nat
  detail : String
deriving DecidableEq, Repr

/-- SummarizationResponse body of the endpoint. -/
structure Response where
  summary : String
deriving DecidableEq, Repr

/-- Trace entry: one invocation of an external collaborator. -/
inductive Call where
  | ytLoadWithInfo (url : String)
  | ytLoadNoInfo (url : String)
  | webLoad (url : String)
  | chatGroqNew (apiKey : String)
  | chainRunCall
deriving DecidableEq, Repr

instance instDecEqExcept {ε α : Type} [DecidableEq ε] [DecidableEq α] :
    DecidableEq (Except ε α)
  | .ok a, .ok b =>
    if h : a = b then .isTrue (congrArg Except.ok h)
    else .isFalse (fun hh => h (Except.ok.inj hh))
  | .error a, .error b =>
    if h : a = b then .isTrue (congrArg Except.error h)
    else .isFalse (fun hh => h (Except.error.inj hh))
  | .ok _, .error _ => .isFalse (fun hh => Except.noConfusion hh)
  | .error _, .ok _ => .isFalse (fun hh => Except.noConfusion hh)

/-- Result of one embedded run: the value or categorized error, the log
lines emitted, and the collaborator calls made, in order. -/
structure RunE (ε α : Type) where
  result : Except ε α
  logs : List String
  calls : List Call
deriving DecidableEq, Repr

/-- Outcomes of every collaborator the FastAPI path may invoke. -/
structure Collab where
  ytWithInfo : Outcome (List Doc)
  ytNoInfo : Outcome (List Doc)
  web : Outcome (List Doc)
  chatGroqInit : Outcome Unit
  chainRun : Outcome String
deriving DecidableEq, Repr

/-- Substring containment, used to state that an error message carries
a given piece of guidance or cause text. -/
def msgContains (s pat : String) : Prop :=
  pat.toList <:+: s.toList

instance (s pat : String) : Decidable (msgContains s pat) :=
  List.decidableInfix pat.toList s.toList

/-- A collaborator extraction attempt counts as failed when it throws
or returns an empty document list. -/
def stageFailed (o : Outcome (List Doc)) : Bool :=
  match o with
  | .throws _ => true
  | .returns docs => docs.isEmpty

namespace App

/-- Second stage of `TextSummarizer.extract_youtube_content` in app.py:
the fallback attempt without video info, reached when the first attempt
threw or returned no documents (`logs0` are the logs of the first
attempt). -/
def extractStage2 (c : Collab) (url : String) (logs0 : List String) :
    RunE Http (List Doc) :=
  match c.ytNoInfo with
  | .returns docs =>
    if docs.isEmpty then
      ⟨.error ⟨400, "No content could be extracted from the YouTube video"⟩,
       logs0, [.ytLoadWithInfo url, .ytLoadNoInfo url]⟩
    else
      ⟨.ok docs,
       logs0 ++ ["INFO: Successfully loaded YouTube content without video info from " ++ url],
       [.ytLoadWithInfo url, .ytLoadNoInfo url]⟩
  | .throws e =>
    ⟨.error ⟨400, "Could not extract YouTube transcript. Please ensure the video has English subtitles available."⟩,
     logs0 ++ ["ERROR: Failed to load YouTube content: " ++ e],
     [.ytLoadWithInfo url, .ytLoadNoInfo url]⟩

/-- Embedding of `TextSummarizer.extract_youtube_content` in app.py:
first attempt with `add_video_info=True`; on a non-empty result return
immediately, otherwise (empty result or exception) fall back to the
attempt without video info. -/
def extract_youtube_content (c : Collab) (url : String) :
    RunE Http (List Doc) :=
  match c.ytWithInfo with
  | .returns docs =>
    if docs.isEmpty then
      extractStage2 c url []
    else
      ⟨.ok docs,
       ["INFO: Successfully loaded YouTube content with video info from " ++ url],
       [.ytLoadWithInfo url]⟩
  | .throws e =>
    extractStage2 c url ["WARNING: Failed to load YouTube with video info: " ++ e]

end App

/-- Model of the Python `str.strip()` method: remove whitespace from
both ends of the string. -/
def strip (s : String) : String :=
  String.mk
    (((s.data.dropWhile (fun ch => ch.isWhitespace)).reverse.dropWhile
      (fun ch => ch.isWhitespace)).reverse)

/-- Modelled from the spec: the external `validators.url` collaborator
is not part of this repository; the spec requires the url to parse as a
well-formed absolute URL. A well-formed absolute URL here starts with
an http or https scheme, has a non-empty dotted host part after the
scheme, and contains no whitespace anywhere. -/
def validators_url (s : String) : Bool :=
  let cs := s.data
  let rest :=
    if List.isPrefixOf "https://".data cs then cs.drop 8
    else if List.isPrefixOf "http://".data cs then cs.drop 7
    else []
  !rest.isEmpty && !(cs.any (fun ch => ch.isWhitespace)) && rest.contains '.'

/-- URL classification used by both files: the url is treated as a
video source when it contains "youtube.com" or "youtu.be". -/
def isYoutubeUrl (url : String) : Bool :=
  decide (msgContains url "youtube.com") || decide (msgContains url "youtu.be")

namespace App

/-- Embedding of `TextSummarizer.load_content` in app.py: dispatch on
the URL shape; the web branch raises 400 on zero documents, and the
outer handler re-raises HTTPException unchanged while wrapping any
other exception (only reachable in the web branch, since the YouTube
branch raises HTTPException only). -/
def load_content (c : Collab) (url : String) : RunE Http (List Doc) :=
  if isYoutubeUrl url then
    extract_youtube_content c url
  else
    match c.web with
    | .returns docs =>
      if docs.isEmpty then
        ⟨.error ⟨400, "No content could be extracted from the URL"⟩, [], [.webLoad url]⟩
      else
        ⟨.ok docs, [], [.webLoad url]⟩
    | .throws e =>
      ⟨.error ⟨400, "Failed to load content: " ++ e⟩,
       ["ERROR: Error loading content from URL " ++ url ++ ": " ++ e],
       [.webLoad url]⟩

/-- Embedding of `TextSummarizer.generate_summary` in app.py: run the
stuff-chain; on success return its text unchanged, on any exception
raise 500 with the cause appended. -/
def generate_summary (c : Collab) (docs : List Doc) : RunE Http String :=
  match c.chainRun with
  | .returns t => ⟨.ok t, [], [.chainRunCall]⟩
  | .throws e =>
    ⟨.error ⟨500, "Failed to generate summary: " ++ e⟩,
     ["ERROR: Error generating summary: " ++ e],
     [.chainRunCall]⟩

/-- Validation block at the top of the `summarize` endpoint in app.py:
credential presence, then url presence, then well-formedness of the
trimmed url; `some e` is the 400 rejection raised, `none` means the
request is accepted for processing. -/
def validationError (key url : String) : Option Http :=
  if strip key = "" then some ⟨400, "API Key is required"⟩
  else if strip url = "" then some ⟨400, "URL is required"⟩
  else if validators_url (strip url) then none
  else some ⟨400, "Invalid URL provided"⟩

/-- Embedding of the `summarize` endpoint in app.py: validate, then
construct the summarizer (the ChatGroq client is configured with the
trimmed credential), load content from the trimmed url and generate a
summary. HTTPException raised inside passes through unchanged; any
other exception (in the model, only a constructor failure) is wrapped
as a 500 with the cause appended, after logging the unexpected error. -/
def summarize (c : Collab) (key url : String) : RunE Http Response :=
  match validationError key url with
  | some e => ⟨.error e, [], []⟩
  | none =>
    match c.chatGroqInit with
    | .throws e =>
      ⟨.error ⟨500, "An unexpected error occurred: " ++ e⟩,
       ["ERROR: Unexpected error occurred"], [.chatGroqNew (strip key)]⟩
    | .returns _ =>
      match load_content c (strip url) with
      | ⟨.error e, llogs, lcalls⟩ => ⟨.error e, llogs, .chatGroqNew (strip key) :: lcalls⟩
      | ⟨.ok docs, llogs, lcalls⟩ =>
        match generate_summary c docs with
        | ⟨.error e, glogs, gcalls⟩ =>
          ⟨.error e, llogs ++ glogs, .chatGroqNew (strip key) :: (lcalls ++ gcalls)⟩
        | ⟨.ok s, glogs, gcalls⟩ =>
          ⟨.ok ⟨s⟩, llogs ++ glogs, .chatGroqNew (strip key) :: (lcalls ++ gcalls)⟩

end App

/-- Outcome of the ChatGroq constructor in the streamlit file, where
the class of the exception decides which handler of `main` catches it:
a ValueError is shown raw, any other exception is shown generically. -/
inductive InitOutcome where
  | ok
  | valueError (msg : String)
  | otherError (msg : String)
deriving DecidableEq, Repr

/-- Outcomes of every collaborator the streamlit path may invoke. -/
structure StCollab where
  ytWithInfo : Outcome (List Doc)
  ytNoInfo : Outcome (List Doc)
  web : Outcome (List Doc)
  chatGroqInit : InitOutcome
  chainRun : Outcome String
deriving DecidableEq, Repr

namespace St

/-- Second stage of `TextSummarizer.extract_youtube_content` in
streamlit_app.py; identical control flow to the app.py version but the
failures are ValueError messages. -/
def extractStage2 (c : StCollab) (url : String) (logs0 : List String) :
    RunE String (List Doc) :=
  match c.ytNoInfo with
  | .returns docs =>
    if docs.isEmpty then
      ⟨.error "No content could be extracted from the YouTube video",
       logs0, [.ytLoadWithInfo url, .ytLoadNoInfo url]⟩
    else
      ⟨.ok docs,
       logs0 ++ ["INFO: Successfully loaded YouTube content without video info from " ++ url],
       [.ytLoadWithInfo url, .ytLoadNoInfo url]⟩
  | .throws e =>
    ⟨.error "Could not extract YouTube transcript. Please ensure the video has English subtitles available.",
     logs0 ++ ["ERROR: Failed to load YouTube content: " ++ e],
     [.ytLoadWithInfo url, .ytLoadNoInfo url]⟩

/-- Embedding of `TextSummarizer.extract_youtube_content` in
streamlit_app.py. -/
def extract_youtube_content (c : StCollab) (url : String) :
    RunE String (List Doc) :=
  match c.ytWithInfo with
  | .returns docs =>
    if docs.isEmpty then
      extractStage2 c url []
    else
      ⟨.ok docs,
       ["INFO: Successfully loaded YouTube content with video info from " ++ url],
       [.ytLoadWithInfo url]⟩
  | .throws e =>
    extractStage2 c url ["WARNING: Failed to load YouTube with video info: " ++ e]

/-- Message raised by `load_content` in streamlit_app.py when its
generic handler catches an exception on the video path. -/
def ytWrapMsg : String :=
  "Failed to load YouTube content. Please ensure:\n1. The video exists and is publicly available\n2. The video has English subtitles/captions available\n3. The URL is correct and accessible"

/-- Embedding of `TextSummarizer.load_content` in streamlit_app.py.
Unlike app.py, the outer handler catches every exception, including the
ValueError raised by the video path and the ValueError raised on zero
web documents, and re-raises the wrapped message for its branch. -/
def load_content (c : StCollab) (url : String) : RunE String (List Doc) :=
  if isYoutubeUrl url then
    let r := extract_youtube_content c url
    match r.result with
    | .ok docs => ⟨.ok docs, r.logs, r.calls⟩
    | .error e =>
      ⟨.error ytWrapMsg,
       r.logs ++ ["ERROR: Error loading content from URL " ++ url ++ ": " ++ e],
       r.calls⟩
  else
    match c.web with
    | .returns docs =>
      if docs.isEmpty then
        ⟨.error ("Failed to load content: " ++ "No content could be extracted from the URL"),
         ["ERROR: Error loading content from URL " ++ url ++ ": No content could be extracted from the URL"],
         [.webLoad url]⟩
      else
        ⟨.ok docs, [], [.webLoad url]⟩
    | .throws e =>
      ⟨.error ("Failed to load content: " ++ e),
       ["ERROR: Error loading content from URL " ++ url ++ ": " ++ e],
       [.webLoad url]⟩

/-- Embedding of `TextSummarizer.generate_summary` in
streamlit_app.py. -/
def generate_summary (c : StCollab) (docs : List Doc) : RunE String String :=
  match c.chainRun with
  | .returns t => ⟨.ok t, [], [.chainRunCall]⟩
  | .throws e =>
    ⟨.error ("Failed to generate summary: " ++ e),
     ["ERROR: Error generating summary: " ++ e],
     [.chainRunCall]⟩

/-- Validation block of `main` in streamlit_app.py: a combined presence
check on the trimmed credential and trimmed url, then well-formedness
of the RAW url (the url is not trimmed before `validators.url`). -/
def validationError (key url : String) : Option String :=
  if strip key = "" ∨ strip url = "" then
    some "Please provide both API key and URL to get started"
  else if validators_url url then none
  else some "Please enter a valid URL (YouTube video or website)"

/-- Embedding of one button click in `main` of streamlit_app.py: the
result is the message shown (error) or the summary shown (ok). The
constructor receives the RAW credential and `load_content` the RAW url.
A ValueError from the body is shown as its own message; any other
exception is shown as the fixed generic message. -/
def main (c : StCollab) (key url : String) : RunE String String :=
  match validationError key url with
  | some m => ⟨.error m, [], []⟩
  | none =>
    match c.chatGroqInit with
    | .valueError e => ⟨.error e, [], [.chatGroqNew key]⟩
    | .otherError _ =>
      ⟨.error "An unexpected error occurred. Please try again later.",
       ["ERROR: Unexpected error occurred"], [.chatGroqNew key]⟩
    | .ok =>
      match load_content c url with
      | ⟨.error e, llogs, lcalls⟩ => ⟨.error e, llogs, .chatGroqNew key :: lcalls⟩
      | ⟨.ok docs, llogs, lcalls⟩ =>
        match generate_summary c docs with
        | ⟨.error e, glogs, gcalls⟩ =>
          ⟨.error e, llogs ++ glogs, .chatGroqNew key :: (lcalls ++ gcalls)⟩
        | ⟨.ok s, glogs, gcalls⟩ =>
          ⟨.ok s, llogs ++ glogs ++ ["INFO: Successfully generated summary"],
           .chatGroqNew key :: (lcalls ++ gcalls)⟩

end St

/-- Sample collaborator outcomes: every collaborator succeeds with one
document or the text "Summary text". -/
def cWeb : Collab :=
  ⟨.returns [⟨"doc"⟩], .returns [⟨"doc"⟩], .returns [⟨"doc"⟩], .returns (), .returns "Summary text"⟩

/-- Sample streamlit collaborator outcomes, all succeeding. -/
def sWeb : StCollab :=
  ⟨.returns [⟨"doc"⟩], .returns [⟨"doc"⟩], .returns [⟨"doc"⟩], .ok, .returns "Summary text"⟩

/-- Sample outcomes where the metadata-enriched YouTube attempt throws
and the transcript-only attempt returns one document. -/
def cFallback : Collab :=
  ⟨.throws "boom", .returns [⟨"t"⟩], .returns [], .returns (), .returns "S"⟩

/-- Sample outcomes where both YouTube attempts return empty lists. -/
def cBothEmpty : Collab :=
  ⟨.returns [], .returns [], .returns [], .returns (), .returns "S"⟩

/-- Sample outcomes where both YouTube attempts throw. -/
def cBothThrow : Collab :=
  ⟨.throws "a", .throws "b", .returns [], .returns (), .returns "S"⟩

/-- Sample outcomes where web extraction succeeds and the LLM call
throws. -/
def cGenFail : Collab :=
  ⟨.returns [], .returns [], .returns [⟨"d"⟩], .returns (), .throws "boom"⟩

/-- Sample outcomes where the ChatGroq constructor throws. -/
def cInitFail : Collab :=
  ⟨.returns [⟨"d"⟩], .returns [⟨"d"⟩], .returns [⟨"d"⟩], .throws "denied", .returns "S"⟩

/-- Sample streamlit outcomes where web extraction succeeds and the LLM
call throws. -/
def sGenFail : StCollab :=
  ⟨.returns [], .returns [], .returns [⟨"d"⟩], .ok, .throws "boom"⟩

/-- Sample streamlit outcomes where every loader returns an empty
list. -/
def sWebEmpty : StCollab :=
  ⟨.returns [], .returns [], .returns [], .ok, .returns "S"⟩

/-- Helper: the fallback stage always records exactly the two YouTube
attempts, in order, whatever its outcome. -/
theorem App.extractStage2_calls (c : Collab) (url : String) (logs0 : List String) :
    (App.extractStage2 c url logs0).calls =
      [.ytLoadWithInfo url, .ytLoadNoInfo url] := by
  unfold App.extractStage2
  split
  · split <;> rfl
  · rfl

/-- Helper: the first call of the video-extraction path is always the
metadata-enriched attempt. -/
theorem App.extract_calls_head (c : Collab) (url : String) :
    (App.extract_youtube_content c url).calls.head? =
      some (.ytLoadWithInfo url) := by
  unfold App.extract_youtube_content
  split
  · split
    · rw [App.extractStage2_calls]; rfl
    · rfl
  · rw [App.extractStage2_calls]; rfl

/-- Helper: every error the fallback stage produces carries status
400. -/
theorem App.extractStage2_status (c : Collab) (url : String) (logs0 : List String)
    (e : Http) (h : (App.extractStage2 c url logs0).result = .error e) :
    e.status = 400 := by
  unfold App.extractStage2 at h
  split at h
  · split at h
    · cases h; rfl
    · exact Except.noConfusion h
  · cases h; rfl

/-- Helper: every error of the video-extraction path carries status
400. -/
theorem App.extract_status (c : Collab) (url : String) (e : Http)
    (h : (App.extract_youtube_content c url).result = .error e) :
    e.status = 400 := by
  unfold App.extract_youtube_content at h
  split at h
  · split at h
    · exact App.extractStage2_status c url _ e h
    · exact Except.noConfusion h
  · exact App.extractStage2_status c url _ e h

/-- Helper: every error of `load_content` in app.py carries status
400. -/
theorem App.load_status (c : Collab) (url : String) (e : Http)
    (h : (App.load_content c url).result = .error e) :
    e.status = 400 := by
  unfold App.load_content at h
  split at h
  · exact App.extract_status c url e h
  · split at h
    · split at h
      · cases h; rfl
      · exact Except.noConfusion h
    · cases h; rfl

/-- Helper: every error of `generate_summary` in app.py carries status
500. -/
theorem App.generate_status (c : Collab) (docs : List Doc) (e : Http)
    (h : (App.generate_summary c docs).result = .error e) :
    e.status = 500 := by
  unfold App.generate_summary at h
  split at h
  · exact Except.noConfusion h
  · cases h; rfl

/-- Helper: when the validation hypothesis of the endpoint fails, the
validation block rejects with a 400. -/
theorem App.validationError_some (key url : String)
    (h : strip key = "" ∨ strip url = "" ∨ validators_url (strip url) = false) :
    ∃ e, App.validationError key url = some e ∧ e.status = 400 := by
  unfold App.validationError
  by_cases hk : strip key = ""
  · exact ⟨_, by rw [if_pos hk], rfl⟩
  · by_cases hu : strip url = ""
    · exact ⟨_, by rw [if_neg hk, if_pos hu], rfl⟩
    · rcases h with h | h | h
      · exact absurd h hk
      · exact absurd h hu
      · exact ⟨_, by rw [if_neg hk, if_neg hu, if_neg (by simp [h])], rfl⟩

/-- Helper: when the validation hypothesis of the form fails, its
validation block rejects. -/
theorem St.validationError_rejects (key url : String)
    (h : strip key = "" ∨ strip url = "" ∨ validators_url url = false) :
    ∃ m, St.validationError key url = some m := by
  unfold St.validationError
  by_cases hp : strip key = "" ∨ strip url = ""
  · exact ⟨_, by rw [if_pos hp]⟩
  · rcases h with h | h | h
    · exact absurd (Or.inl h) hp
    · exact absurd (Or.inr h) hp
    · exact ⟨_, by rw [if_neg hp, if_neg (by simp [h])]⟩

/-- Helper: a message is contained in any string that appends it to a
fixed piece of text on the left. -/
theorem msgContains_append_left (p e : String) : msgContains (p ++ e) e := by
  unfold msgContains
  rw [String.toList, String.toList, String.data_append]
  exact (List.suffix_append _ _).isInfix

set_option maxRecDepth 4000 in
/-- Helper: when both the metadata-enriched attempt and the
transcript-only attempt fail or come back empty, the fallback stage
ends in a 400 error, whose message mentions English subtitles whenever
the second attempt threw. -/
theorem App.extractStage2_both (c : Collab) (url : String) (logs0 : List String)
    (h2 : stageFailed c.ytNoInfo = true) :
    ∃ e, (App.extractStage2 c url logs0).result = .error e ∧ e.status = 400 ∧
      (∀ m, c.ytNoInfo = .throws m → msgContains e.detail "English subtitles") := by
  unfold App.extractStage2
  cases hn : c.ytNoInfo with
  | throws m =>
    refine ⟨⟨400, "Could not extract YouTube transcript. Please ensure the video has English subtitles available."⟩, rfl, rfl, ?_⟩
    intro m2 hm2
    exact (by decide :
      msgContains "Could not extract YouTube transcript. Please ensure the video has English subtitles available." "English subtitles")
  | returns docs =>
    rw [hn] at h2
    simp only [stageFailed] at h2
    refine ⟨⟨400, "No content could be extracted from the YouTube video"⟩, ?_, rfl, ?_⟩
    · simp [h2]
    · intro m2 hm2
      exact Outcome.noConfusion hm2

/-- C1: video-source content extraction runs in a fixed two-stage
order: a non-empty result of the metadata-enriched attempt is returned
at once and only that attempt is made; if the first attempt throws or
returns an empty list, exactly one further attempt, the transcript-only
one, is made, in that order; and when the first attempt throws while
the second returns a non-empty document list, `load_content` returns
exactly that document list. -/
theorem claim_C1 (c : Collab) (url : String) :
    (∀ docs, c.ytWithInfo = .returns docs → docs ≠ [] →
      App.extract_youtube_content c url =
        ⟨.ok docs,
         ["INFO: Successfully loaded YouTube content with video info from " ++ url],
         [.ytLoadWithInfo url]⟩) ∧
    (stageFailed c.ytWithInfo = true →
      (App.extract_youtube_content c url).calls =
        [.ytLoadWithInfo url, .ytLoadNoInfo url]) ∧
    (∀ e docs, isYoutubeUrl url = true →
      c.ytWithInfo = .throws e → c.ytNoInfo = .returns docs → docs ≠ [] →
      (App.load_content c url).result = .ok docs) := by
  refine ⟨?_, ?_, ?_⟩
  · intro docs h hne
    cases docs with
    | nil => exact absurd rfl hne
    | cons d ds =>
      unfold App.extract_youtube_content
      rw [h]
      rfl
  · intro h
    unfold App.extract_youtube_content
    cases hw : c.ytWithInfo with
    | throws m => exact App.extractStage2_calls c url _
    | returns docs =>
      rw [hw] at h
      simp only [stageFailed] at h
      simp [h]
      exact App.extractStage2_calls c url []
  · intro e docs hyt h1 h2 hne
    cases docs with
    | nil => exact absurd rfl hne
    | cons d ds =>
      unfold App.load_content
      rw [if_pos hyt]
      unfold App.extract_youtube_content
      rw [h1]
      unfold App.extractStage2
      rw [h2]
      rfl

/-- C1 witness: concrete runs exercising each conjunct — a non-empty
first attempt returned alone; a failed first attempt followed by the
second attempt; and the spec scenario where the first attempt throws
and the second returns one document. -/
theorem claim_C1_witness :
    App.extract_youtube_content cWeb "https://youtu.be/x" =
      ⟨.ok [⟨"doc"⟩],
       ["INFO: Successfully loaded YouTube content with video info from " ++ "https://youtu.be/x"],
       [.ytLoadWithInfo "https://youtu.be/x"]⟩ ∧
    (App.extract_youtube_content cBothEmpty "https://youtu.be/x").calls =
      [.ytLoadWithInfo "https://youtu.be/x", .ytLoadNoInfo "https://youtu.be/x"] ∧
    (App.load_content cFallback "https://youtu.be/x").result = .ok [⟨"t"⟩] :=
  ⟨(claim_C1 cWeb "https://youtu.be/x").1 [⟨"doc"⟩] rfl (by decide),
   (claim_C1 cBothEmpty "https://youtu.be/x").2.1 (by decide),
   (claim_C1 cFallback "https://youtu.be/x").2.2 "boom" [⟨"t"⟩] (by decide) rfl rfl
     (by decide)⟩

/-- C2 counterexample: for the credential "k" and the url
" https://example.com" (one leading space), the endpoint accepts and
delegates, while the form rejects the raw url as malformed before
delegating: the two front ends reach different validation decisions on
the same input pair. -/
theorem claim_C2_counterexample :
    (App.summarize cWeb "k" " https://example.com").result = .ok ⟨"Summary text"⟩ ∧
    (App.summarize cWeb "k" " https://example.com").calls ≠ [] ∧
    (St.main sWeb "k" " https://example.com").result =
      .error "Please enter a valid URL (YouTube video or website)" ∧
    (St.main sWeb "k" " https://example.com").calls = [] :=
  ⟨by decide, by decide, by decide, by decide⟩

/-- C2 (amended): both front ends check credential presence, then url
presence, then url well-formedness, but the endpoint validates the
trimmed url while the form validates the raw url; for every input pair
whose url is unchanged by trimming the two front ends reach the same
accept/reject validation decision. -/
theorem claim_C2 (key url : String) (h : strip url = url) :
    (App.validationError key url).isNone = (St.validationError key url).isNone := by
  unfold App.validationError St.validationError
  by_cases hk : strip key = ""
  · simp [hk]
  · by_cases hu : strip url = ""
    · simp [hk, hu]
    · rw [h] at hu
      by_cases hv : validators_url url = true
      · simp [hk, hu, h, hv]
      · simp [hk, hu, h, hv]

/-- C2 witness: a trim-invariant url on which both front ends accept. -/
theorem claim_C2_witness :
    strip "https://example.com" = "https://example.com" ∧
    (App.validationError "k" "https://example.com").isNone =
      (St.validationError "k" "https://example.com").isNone :=
  ⟨by decide, claim_C2 "k" "https://example.com" (by decide)⟩

/-- C3: whenever the credential or the url is empty after trimming, or
the url fails well-formedness validation, each front end rejects with
its InvalidInput rejection (a 400 for the endpoint) and no collaborator
call of any kind is made. -/
theorem claim_C3 (key url : String) (c : Collab) (sc : StCollab) :
    ((strip key = "" ∨ strip url = "" ∨ validators_url (strip url) = false) →
      (App.summarize c key url).calls = [] ∧
      ∃ e, (App.summarize c key url).result = .error e ∧ e.status = 400) ∧
    ((strip key = "" ∨ strip url = "" ∨ validators_url url = false) →
      (St.main sc key url).calls = [] ∧
      ∃ m, (St.main sc key url).result = .error m) := by
  constructor
  · intro h
    obtain ⟨e, he, h400⟩ := App.validationError_some key url h
    unfold App.summarize
    rw [he]
    exact ⟨rfl, e, rfl, h400⟩
  · intro h
    obtain ⟨m, hm⟩ := St.validationError_rejects key url h
    unfold St.main
    rw [hm]
    exact ⟨rfl, m, rfl⟩

/-- C3 witness: an empty credential is rejected by both front ends with
no collaborator call. -/
theorem claim_C3_witness :
    ((App.summarize cWeb "" "x").calls = [] ∧
      ∃ e, (App.summarize cWeb "" "x").result = .error e ∧ e.status = 400) ∧
    ((St.main sWeb "" "x").calls = [] ∧
      ∃ m, (St.main sWeb "" "x").result = .error m) :=
  ⟨(claim_C3 "" "x" cWeb sWeb).1 (by decide),
   (claim_C3 "" "x" cWeb sWeb).2 (by decide)⟩

/-- C4 counterexample: when both YouTube attempts return empty lists,
the endpoint fails with the fixed 400 message "No content could be
extracted from the YouTube video", which does not guide the caller to
verify that the video is public: it contains neither "public" nor
"captions". -/
theorem claim_C4_counterexample :
    (App.extract_youtube_content cBothEmpty "https://www.youtube.com/watch?v=a").result =
      .error ⟨400, "No content could be extracted from the YouTube video"⟩ ∧
    ¬ msgContains "No content could be extracted from the YouTube video" "public" ∧
    ¬ msgContains "No content could be extracted from the YouTube video" "captions" :=
  ⟨by decide, by decide, by decide⟩

set_option maxRecDepth 4000 in
/-- C4 (amended): when both YouTube extraction attempts fail or return
empty lists, the endpoint fails terminally with a 400-class error; only
when the second attempt throws does the message carry guidance, and it
mentions English subtitles (the message that mentions a public video
exists only in the interactive front end). -/
theorem claim_C4 (c : Collab) (url : String)
    (h1 : stageFailed c.ytWithInfo = true) (h2 : stageFailed c.ytNoInfo = true) :
    ∃ e, (App.extract_youtube_content c url).result = .error e ∧ e.status = 400 ∧
      (∀ m, c.ytNoInfo = .throws m → msgContains e.detail "English subtitles") := by
  unfold App.extract_youtube_content
  cases hw : c.ytWithInfo with
  | throws m => exact App.extractStage2_both c url _ h2
  | returns docs =>
    rw [hw] at h1
    simp only [stageFailed] at h1
    simp only [h1, if_true]
    exact App.extractStage2_both c url [] h2

/-- C4 witness: both attempts throw; the surfaced 400 message mentions
English subtitles. -/
theorem claim_C4_witness :
    stageFailed cBothThrow.ytWithInfo = true ∧
    stageFailed cBothThrow.ytNoInfo = true ∧
    ∃ e, (App.extract_youtube_content cBothThrow "https://youtu.be/x").result = .error e ∧
      e.status = 400 ∧
      (∀ m, cBothThrow.ytNoInfo = .throws m → msgContains e.detail "English subtitles") :=
  ⟨by decide, by decide,
   claim_C4 cBothThrow "https://youtu.be/x" (by decide) (by decide)⟩

/-- C5: `load_content` dispatches a url matching the video-hosting
patterns to the video-transcript extraction path (whose first call is
the metadata-enriched YouTube load), and every other url to the generic
web extraction path, which is then the only collaborator invoked. -/
theorem claim_C5 (c : Collab) (url : String) :
    (isYoutubeUrl url = true →
      App.load_content c url = App.extract_youtube_content c url ∧
      (App.load_content c url).calls.head? = some (.ytLoadWithInfo url)) ∧
    (isYoutubeUrl url = false →
      (App.load_content c url).calls = [.webLoad url]) := by
  constructor
  · intro h
    have hl : App.load_content c url = App.extract_youtube_content c url := by
      unfold App.load_content
      rw [if_pos h]
    exact ⟨hl, by rw [hl]; exact App.extract_calls_head c url⟩
  · intro h
    unfold App.load_content
    rw [if_neg (by simp [h])]
    cases hw : c.web with
    | throws m => rfl
    | returns docs => by_cases hd : docs.isEmpty = true <;> simp [hd]

/-- C5 witness: a YouTube short-link url goes to the video path and a
plain https url goes to the web path. -/
theorem claim_C5_witness :
    (App.load_content cWeb "https://youtu.be/x" =
       App.extract_youtube_content cWeb "https://youtu.be/x" ∧
     (App.load_content cWeb "https://youtu.be/x").calls.head? =
       some (.ytLoadWithInfo "https://youtu.be/x")) ∧
    (App.load_content cWeb "https://example.com").calls =
      [.webLoad "https://example.com"] :=
  ⟨(claim_C5 cWeb "https://youtu.be/x").1 (by decide),
   (claim_C5 cWeb "https://example.com").2 (by decide)⟩

/-- Helper: every rejection of the endpoint validation block carries
status 400. -/
theorem App.validationError_status (key url : String) (e : Http)
    (h : App.validationError key url = some e) : e.status = 400 := by
  unfold App.validationError at h
  split at h
  · cases h; rfl
  · split at h
    · cases h; rfl
    · split at h
      · exact Option.noConfusion h
      · cases h; rfl

/-- C6: every failure of the endpoint surfaces as a categorized error
carrying status 400 or 500 with a detail message, never a raw
collaborator exception; and an already-categorized error raised by
content loading or by generation passes through the summarizer boundary
and the endpoint handler with status and message unchanged. -/
theorem claim_C6 (c : Collab) (key url : String) :
    (∀ e, (App.summarize c key url).result = .error e →
      e.status = 400 ∨ e.status = 500) ∧
    (App.validationError key url = none → c.chatGroqInit = .returns () →
      ∀ e, (App.load_content c (strip url)).result = .error e →
        (App.summarize c key url).result = .error e) ∧
    (App.validationError key url = none → c.chatGroqInit = .returns () →
      ∀ docs e, (App.load_content c (strip url)).result = .ok docs →
        (App.generate_summary c docs).result = .error e →
        (App.summarize c key url).result = .error e) := by
  refine ⟨?_, ?_, ?_⟩
  · intro e he
    unfold App.summarize at he
    cases hv : App.validationError key url with
    | some e0 =>
      rw [hv] at he
      cases he
      exact Or.inl (App.validationError_status key url _ hv)
    | none =>
      rw [hv] at he
      cases hi : c.chatGroqInit with
      | throws m =>
        rw [hi] at he
        cases he
        exact Or.inr rfl
      | returns u =>
        rw [hi] at he
        cases hl : App.load_content c (strip url) with
        | mk lres llogs lcalls =>
          rw [hl] at he
          cases lres with
          | error e1 =>
            cases he
            exact Or.inl (App.load_status c (strip url) _ (by rw [hl]))
          | ok docs =>
            dsimp only at he
            cases hg : App.generate_summary c docs with
            | mk gres glogs gcalls =>
              rw [hg] at he
              cases gres with
              | error e2 =>
                cases he
                exact Or.inr (App.generate_status c docs _ (by rw [hg]))
              | ok s => exact Except.noConfusion he
  · intro hv hi e hl
    unfold App.summarize
    rw [hv, hi]
    cases hlc : App.load_content c (strip url) with
    | mk lres llogs lcalls =>
      rw [hlc] at hl
      dsimp only at hl
      subst hl
      rfl
  · intro hv hi docs e hl hg
    unfold App.summarize
    rw [hv, hi]
    cases hlc : App.load_content c (strip url) with
    | mk lres llogs lcalls =>
      rw [hlc] at hl
      dsimp only at hl
      subst hl
      dsimp only
      cases hgc : App.generate_summary c docs with
      | mk gres glogs gcalls =>
        rw [hgc] at hg
        dsimp only at hg
        subst hg
        rfl

/-- C6 witness: a 400 content failure and a 500 generation failure both
pass through the endpoint unchanged, and the categorized status of an
erroring run is in the 400/500 set. -/
theorem claim_C6_witness :
    ((Http.mk 400 "No content could be extracted from the YouTube video").status = 400 ∨
      (Http.mk 400 "No content could be extracted from the YouTube video").status = 500) ∧
    (App.summarize cBothEmpty "k" "https://www.youtube.com/watch?v=a").result =
      .error ⟨400, "No content could be extracted from the YouTube video"⟩ ∧
    (App.summarize cGenFail "k" "https://example.com").result =
      .error ⟨500, "Failed to generate summary: " ++ "boom"⟩ :=
  ⟨(claim_C6 cBothEmpty "k" "https://www.youtube.com/watch?v=a").1
      ⟨400, "No content could be extracted from the YouTube video"⟩ (by decide),
   (claim_C6 cBothEmpty "k" "https://www.youtube.com/watch?v=a").2.1 (by decide) rfl
      ⟨400, "No content could be extracted from the YouTube video"⟩ (by decide),
   (claim_C6 cGenFail "k" "https://example.com").2.2 (by decide) rfl [⟨"d"⟩]
      ⟨500, "Failed to generate summary: " ++ "boom"⟩ (by decide) (by decide)⟩

/-- C7: in both files, when the LLM summarization call succeeds its
text is returned unchanged; when it throws, `generate_summary` fails
with the generation-failure wrapper (a 500 in the endpoint) whose
message contains the underlying cause text. -/
theorem claim_C7 (c : Collab) (sc : StCollab) (docs : List Doc) :
    (∀ t, c.chainRun = .returns t → (App.generate_summary c docs).result = .ok t) ∧
    (∀ e, c.chainRun = .throws e →
      ∃ err, (App.generate_summary c docs).result = .error err ∧
        err.status = 500 ∧ msgContains err.detail e) ∧
    (∀ t, sc.chainRun = .returns t → (St.generate_summary sc docs).result = .ok t) ∧
    (∀ e, sc.chainRun = .throws e →
      ∃ m, (St.generate_summary sc docs).result = .error m ∧ msgContains m e) := by
  refine ⟨?_, ?_, ?_, ?_⟩
  · intro t h
    unfold App.generate_summary
    rw [h]
  · intro e h
    unfold App.generate_summary
    rw [h]
    exact ⟨⟨500, "Failed to generate summary: " ++ e⟩, rfl, rfl,
      msgContains_append_left "Failed to generate summary: " e⟩
  · intro t h
    unfold St.generate_summary
    rw [h]
  · intro e h
    unfold St.generate_summary
    rw [h]
    exact ⟨"Failed to generate summary: " ++ e, rfl,
      msgContains_append_left "Failed to generate summary: " e⟩

/-- C7 witness: a successful generation returns the text unchanged and
a throwing generation surfaces the wrapped cause, in both files. -/
theorem claim_C7_witness :
    (App.generate_summary cWeb [⟨"doc"⟩]).result = .ok "Summary text" ∧
    (∃ err, (App.generate_summary cGenFail [⟨"d"⟩]).result = .error err ∧
      err.status = 500 ∧ msgContains err.detail "boom") ∧
    (St.generate_summary sWeb [⟨"doc"⟩]).result = .ok "Summary text" ∧
    (∃ m, (St.generate_summary sGenFail [⟨"d"⟩]).result = .error m ∧ msgContains m "boom") :=
  ⟨(claim_C7 cWeb sWeb [⟨"doc"⟩]).1 "Summary text" rfl,
   (claim_C7 cGenFail sWeb [⟨"d"⟩]).2.1 "boom" rfl,
   (claim_C7 cWeb sWeb [⟨"doc"⟩]).2.2.1 "Summary text" rfl,
   (claim_C7 cWeb sGenFail [⟨"d"⟩]).2.2.2 "boom" rfl⟩

/-- C8: for a non-video url, zero documents from the web extraction
collaborator produce the content-not-found failure (a 400 in the
endpoint), and a non-empty document list is returned as is, in both
files. -/
theorem claim_C8 (c : Collab) (sc : StCollab) (url : String)
    (h : isYoutubeUrl url = false) :
    (c.web = .returns [] →
      (App.load_content c url).result =
        .error ⟨400, "No content could be extracted from the URL"⟩) ∧
    (∀ docs, c.web = .returns docs → docs ≠ [] →
      (App.load_content c url).result = .ok docs) ∧
    (sc.web = .returns [] → ∃ m, (St.load_content sc url).result = .error m) ∧
    (∀ docs, sc.web = .returns docs → docs ≠ [] →
      (St.load_content sc url).result = .ok docs) := by
  have hny : ¬(isYoutubeUrl url = true) := by simp [h]
  refine ⟨?_, ?_, ?_, ?_⟩
  · intro hw
    unfold App.load_content
    rw [if_neg hny, hw]
    rfl
  · intro docs hw hne
    cases docs with
    | nil => exact absurd rfl hne
    | cons d ds =>
      unfold App.load_content
      rw [if_neg hny, hw]
      rfl
  · intro hw
    unfold St.load_content
    rw [if_neg hny, hw]
    exact ⟨_, rfl⟩
  · intro docs hw hne
    cases docs with
    | nil => exact absurd rfl hne
    | cons d ds =>
      unfold St.load_content
      rw [if_neg hny, hw]
      rfl

/-- C8 witness: a plain https url with zero extracted documents fails,
and with one document succeeds, in both files. -/
theorem claim_C8_witness :
    (App.load_content cBothEmpty "https://example.com").result =
      .error ⟨400, "No content could be extracted from the URL"⟩ ∧
    (App.load_content cWeb "https://example.com").result = .ok [⟨"doc"⟩] ∧
    (∃ m, (St.load_content sWebEmpty "https://example.com").result = .error m) ∧
    (St.load_content sWeb "https://example.com").result = .ok [⟨"doc"⟩] :=
  ⟨(claim_C8 cBothEmpty sWebEmpty "https://example.com" (by decide)).1 rfl,
   (claim_C8 cWeb sWeb "https://example.com" (by decide)).2.1 [⟨"doc"⟩] rfl (by decide),
   (claim_C8 cBothEmpty sWebEmpty "https://example.com" (by decide)).2.2.1 rfl,
   (claim_C8 cWeb sWeb "https://example.com" (by decide)).2.2.2 [⟨"doc"⟩] rfl (by decide)⟩

/-- C9 counterexample: two endpoint runs that differ only in the
credential value ("" versus "abc") surface different error details
("API Key is required" versus "Invalid URL provided"): surfaced output
is not identical across all credential pairs, because validation
inspects the credential. -/
theorem claim_C9_counterexample :
    (App.summarize cWeb "" "x").result = .error ⟨400, "API Key is required"⟩ ∧
    (App.summarize cWeb "abc" "x").result = .error ⟨400, "Invalid URL provided"⟩ ∧
    (App.summarize cWeb "" "x").result ≠ (App.summarize cWeb "abc" "x").result :=
  ⟨by decide, by decide, by decide⟩

/-- C9 (amended): the credential reaches only the ChatGroq constructor
call; for any two credentials that are both non-empty after trimming,
two runs differing only in the credential produce identical results
(hence identical surfaced error details) and identical log output. -/
theorem claim_C9 (k1 k2 url : String) (c : Collab)
    (h1 : strip k1 ≠ "") (h2 : strip k2 ≠ "") :
    (App.summarize c k1 url).result = (App.summarize c k2 url).result ∧
    (App.summarize c k1 url).logs = (App.summarize c k2 url).logs := by
  have hv : App.validationError k1 url = App.validationError k2 url := by
    unfold App.validationError
    rw [if_neg h1, if_neg h2]
  constructor <;>
  · unfold App.summarize
    rw [hv]
    cases App.validationError k2 url with
    | some e => rfl
    | none =>
      cases c.chatGroqInit with
      | throws m => rfl
      | returns u =>
        dsimp only
        cases App.load_content c (strip url) with
        | mk lres llogs lcalls =>
          cases lres with
          | error e1 => rfl
          | ok docs =>
            dsimp only
            cases App.generate_summary c docs with
            | mk gres glogs gcalls =>
              cases gres with
              | error e2 => rfl
              | ok s => rfl

/-- C9 witness: two concrete non-empty credentials give the same result
and logs on the same url and collaborator outcomes. -/
theorem claim_C9_witness :
    strip "a" ≠ "" ∧ strip "b" ≠ "" ∧
    ((App.summarize cWeb "a" "https://example.com").result =
       (App.summarize cWeb "b" "https://example.com").result ∧
     (App.summarize cWeb "a" "https://example.com").logs =
       (App.summarize cWeb "b" "https://example.com").logs) :=
  ⟨by decide, by decide,
   claim_C9 "a" "b" "https://example.com" cWeb (by decide) (by decide)⟩

/-- C10: a credential that is non-empty after trimming is never the
cause of a validation rejection (any remaining rejection concerns the
url), and when the summarizer constructor then throws, the endpoint
surfaces a 500 Unexpected wrapper around the cause text, never a
400-class InvalidInput rejection. -/
theorem claim_C10 (key url : String) (c : Collab) (h : strip key ≠ "") :
    (∀ e, App.validationError key url = some e →
      e.detail = "URL is required" ∨ e.detail = "Invalid URL provided") ∧
    (∀ e, App.validationError key url = none → c.chatGroqInit = .throws e →
      (App.summarize c key url).result =
        .error ⟨500, "An unexpected error occurred: " ++ e⟩) := by
  constructor
  · intro e he
    unfold App.validationError at he
    rw [if_neg h] at he
    split at he
    · cases he; exact Or.inl rfl
    · split at he
      · exact Option.noConfusion he
      · cases he; exact Or.inr rfl
  · intro e hv hi
    unfold App.summarize
    rw [hv, hi]

/-- C10 witness: the credential "k" passes validation paired with a bad
url (the rejection is about the url), and with a good url a throwing
constructor surfaces as the 500 Unexpected wrapper. -/
theorem claim_C10_witness :
    strip "k" ≠ "" ∧
    ((Http.mk 400 "Invalid URL provided").detail = "URL is required" ∨
      (Http.mk 400 "Invalid URL provided").detail = "Invalid URL provided") ∧
    (App.summarize cInitFail "k" "https://example.com").result =
      .error ⟨500, "An unexpected error occurred: " ++ "denied"⟩ :=
  ⟨by decide,
   (claim_C10 "k" "x" cInitFail (by decide)).1 ⟨400, "Invalid URL provided"⟩ (by decide),
   (claim_C10 "k" "https://example.com" cInitFail (by decide)).2 "denied" (by decide) rfl⟩
